import Mathlib

/-!
Verification development for the HappyDog pet-care backend.

Each definition is a shallow embedding of one Python function of the
repository (file and line references are given in the doc comments).
Machine floats that only ever hold small decimal values are modelled as
exact rationals; Firestore document collections are modelled as explicit
maps or association lists, and Firestore field transforms
(firestore.Increment) by their documented semantics.  Side effects that
matter to a claim (storage calls, document commits, vector-index writes)
are reified as explicit effect lists in the order the code performs them.
-/

namespace HappyDog

/-! ## Biometric admission pipeline
Embedding of nose_models/nose_lib/pipelines/nose_print_pipeline.py and of
PetService.register_nose_print_for_pet in app/api/pets/services.py. -/

/-- Status strings produced by NosePrintPipeline.process_image and by
PetService.register_nose_print_for_pet. -/
inductive NoseStatus
  | success
  | duplicate
  | invalidImage
  | alreadyVerified
  | error
  deriving DecidableEq, Repr

/-- Result dictionary of NosePrintPipeline.process_image: status, the
faiss ordinal id the caller should commit (SUCCESS only), the nearest
neighbour id (DUPLICATE only) and the reported distance. -/
structure PipelineResult where
  status : NoseStatus
  faissId : Option Nat
  nearestId : Option Nat
  distance : Option ℚ
  deriving DecidableEq, Repr

/-- self.duplicate_threshold = 0.7 (nose_print_pipeline.py line 18). -/
def duplicateThreshold : ℚ := mkRat 7 10

/-- self.outlier_threshold = 1.2 (nose_print_pipeline.py line 19). -/
def outlierThreshold : ℚ := mkRat 12 10

/-- Decision phase of NosePrintPipeline.process_image
(nose_print_pipeline.py lines 58-73).  ntotal is self.faiss_index.ntotal,
and (nearestId, dist) the k=1 search result that the code reads when
ntotal is nonzero.  The download/detect/extract read phase is upstream of
this decision and does not influence the classification. -/
def processImage (ntotal nearestId : Nat) (dist : ℚ) : PipelineResult :=
  if ntotal = 0 then
    { status := .success, faissId := some 0, nearestId := none, distance := some (-1) }
  else if dist ≤ duplicateThreshold then
    { status := .duplicate, faissId := none, nearestId := some nearestId, distance := some dist }
  else if outlierThreshold < dist then
    { status := .invalidImage, faissId := none, nearestId := none, distance := some dist }
  else
    { status := .success, faissId := some ntotal, nearestId := none, distance := some dist }

/-- The faiss search on line 62 runs exactly when the early return for an
empty index (lines 58-60) is not taken. -/
def searchIssued (ntotal : Nat) : Bool := ntotal ≠ 0

/-- Pet document fields relevant to nose-print admission
(app/models/pet.py, app/api/pets/services.py). -/
structure PetDoc where
  userId : String
  isVerified : Bool
  nosePrintUrl : Option String
  faissId : Option Nat
  deriving DecidableEq, Repr

/-- Side effects of PetService.register_nose_print_for_pet, in program
order: blob.make_public() on the staging key, the Firestore update of the
pet document (is_verified, nose_print_url, faiss_id), and
NosePrintPipeline.add_vector_to_index (faiss add followed by
faiss.write_index). -/
inductive AdmissionEffect
  | makePublic (key : String)
  | commitPet (petId : String) (url : String) (faissId : Nat)
  | addVector
  deriving DecidableEq, Repr

/-- Outcome reported by PetService.register_nose_print_for_pet; the
PermissionError raised on a failed ownership check is a distinct
constructor. -/
inductive AdmissionOutcome
  | success
  | duplicate
  | invalidImage
  | alreadyVerified
  | error
  | permissionError
  deriving DecidableEq, Repr

/-- PetService.register_nose_print_for_pet (app/api/pets/services.py lines
97-143) composed with the pipeline decision.  pets is the pets collection,
downloadOk tells whether the staging blob exists and image processing
raised no exception (otherwise process_image returns ERROR), publicUrl
maps a storage key to the public URL make_public yields for it.  The
result pairs the reported outcome with the list of effects in the order
the code performs them. -/
def registerNosePrint (pets : String → Option PetDoc) (petId uid key : String)
    (downloadOk : Bool) (ntotal nearestId : Nat) (dist : ℚ)
    (publicUrl : String → String) : AdmissionOutcome × List AdmissionEffect :=
  match pets petId with
  | none => (.permissionError, [])
  | some pet =>
    if pet.userId ≠ uid then (.permissionError, [])
    else if pet.isVerified then (.alreadyVerified, [])
    else if ¬ downloadOk then (.error, [])
    else if (processImage ntotal nearestId dist).status = .success then
      (.success,
        [.makePublic key,
         .commitPet petId (publicUrl key) ((processImage ntotal nearestId dist).faissId.getD 0),
         .addVector])
    else if (processImage ntotal nearestId dist).status = .duplicate then (.duplicate, [])
    else if (processImage ntotal nearestId dist).status = .invalidImage then (.invalidImage, [])
    else (.error, [])

/-! ## Social graph: like toggles and counters
Embedding of PostService.toggle_post_like (pet_project_frontend
app/api/posts/services.py lines 128-169) and of
CommentService._toggle_like_comment_transaction
(app/api/comments/services.py lines 139-159). -/

/-- The two like subject kinds appearing in composed like ids. -/
inductive SubjectType
  | post
  | comment
  deriving DecidableEq, Repr

/-- Key of a document in the likes collection.  The Firestore document id
is the composed string post_{user_id}_{post_id} respectively
comment_{user_id}_{comment_id}; we model the id by the components it is
composed from. -/
structure LikeKey where
  subjType : SubjectType
  userId : String
  subjectId : String
  deriving DecidableEq, Repr

/-- Contents of a like document as written by the toggle transactions:
user_id, the subject id field (post_id or comment_id) and created_at
(datetime.utcnow(), modelled as an abstract tick). -/
structure LikeDoc where
  userId : String
  subjectId : String
  createdAt : Nat
  deriving DecidableEq, Repr

/-- Post document fields used by the like/comment transactions. -/
structure PostSocialDoc where
  authorId : String
  likeCount : Int
  commentCount : Int
  deriving DecidableEq, Repr

/-- Comment document fields used by the like transactions. -/
structure CommentSocialDoc where
  authorId : String
  postId : String
  likeCount : Int
  deriving DecidableEq, Repr

/-- The Firestore collections the social-graph services touch. -/
structure SocialState where
  posts : String → Option PostSocialDoc
  comments : String → Option CommentSocialDoc
  likes : List (LikeKey × LikeDoc)

/-- like_ref.get(): lookup of a like document by its deterministic id. -/
def lookupLike : List (LikeKey × LikeDoc) → LikeKey → Option LikeDoc
  | [], _ => none
  | e :: rest, k => if e.1 = k then some e.2 else lookupLike rest k

/-- transaction.delete(like_ref): removal of the like document with the
given id. -/
def removeLike : List (LikeKey × LikeDoc) → LikeKey → List (LikeKey × LikeDoc)
  | [], _ => []
  | e :: rest, k => if e.1 = k then removeLike rest k else e :: removeLike rest k

/-- Number of like documents for one subject. -/
def countLikes : List (LikeKey × LikeDoc) → SubjectType → String → Nat
  | [], _, _ => 0
  | e :: rest, t, sid =>
    (if e.1.subjType = t ∧ e.1.subjectId = sid then 1 else 0) + countLikes rest t sid

/-- Documented semantics of the firestore.Increment(delta) field transform
used inside the toggle and comment transactions: the post-state is the
prior value plus delta; the transform performs no clamping. -/
def firestoreIncrement (prior delta : Int) : Int := prior + delta

/-- Errors surfaced by the toggle transactions (the ValueError raised when
the subject document does not exist). -/
inductive ToggleError
  | subjectNotFound
  deriving DecidableEq, Repr

/-- PostService.toggle_post_like._update_in_transaction (frontend
app/api/posts/services.py lines 132-151): read the like document with id
post_{user_id}_{post_id} and the post document; missing post raises; an
existing like is deleted and like_count incremented by -1 returning
False; otherwise the like document {user_id, post_id, created_at} is
written and like_count incremented by 1 returning True. -/
def togglePostLike (s : SocialState) (uid pid : String) (now : Nat) :
    Except ToggleError (Bool × SocialState) :=
  match s.posts pid with
  | none => .error .subjectNotFound
  | some post =>
    match lookupLike s.likes ⟨.post, uid, pid⟩ with
    | some _ =>
        .ok (false,
          { s with
            likes := removeLike s.likes ⟨.post, uid, pid⟩,
            posts := fun p =>
              if p = pid then
                some { post with likeCount := firestoreIncrement post.likeCount (-1) }
              else s.posts p })
    | none =>
        .ok (true,
          { s with
            likes := (⟨.post, uid, pid⟩, ⟨uid, pid, now⟩) :: s.likes,
            posts := fun p =>
              if p = pid then
                some { post with likeCount := firestoreIncrement post.likeCount 1 }
              else s.posts p })

/-- CommentService._toggle_like_comment_transaction
(app/api/comments/services.py lines 139-159): identical structure on the
comments collection with like id comment_{user_id}_{comment_id}. -/
def toggleCommentLike (s : SocialState) (uid cid : String) (now : Nat) :
    Except ToggleError (Bool × SocialState) :=
  match s.comments cid with
  | none => .error .subjectNotFound
  | some c =>
    match lookupLike s.likes ⟨.comment, uid, cid⟩ with
    | some _ =>
        .ok (false,
          { s with
            likes := removeLike s.likes ⟨.comment, uid, cid⟩,
            comments := fun p =>
              if p = cid then
                some { c with likeCount := firestoreIncrement c.likeCount (-1) }
              else s.comments p })
    | none =>
        .ok (true,
          { s with
            likes := (⟨.comment, uid, cid⟩, ⟨uid, cid, now⟩) :: s.likes,
            comments := fun p =>
              if p = cid then
                some { c with likeCount := firestoreIncrement c.likeCount 1 }
              else s.comments p })

/-- Well-formedness of the likes collection: Firestore document ids are
unique, so the key list has no duplicates. -/
def likesWf (likes : List (LikeKey × LikeDoc)) : Prop :=
  (likes.map Prod.fst).Nodup

/-- Counter consistency: every post document's like_count equals the
number of like documents for it. -/
def postCountsConsistent (s : SocialState) : Prop :=
  ∀ pid post, s.posts pid = some post →
    post.likeCount = (countLikes s.likes .post pid : Int)

/-- Counter consistency for comments. -/
def commentCountsConsistent (s : SocialState) : Prop :=
  ∀ cid c, s.comments cid = some c →
    c.likeCount = (countLikes s.likes .comment cid : Int)

/-! ## Notification fan-out
Embedding of NotificationService.create_notification
(app/services/notification_service.py lines 19-72) and of its call sites
in the comment and like services. -/

/-- NotificationType (app/models/notification.py). -/
inductive NotifType
  | postLike
  | commentLike
  | commentMade
  | mention
  | cartoonSuccess
  | cartoonFailed
  deriving DecidableEq, Repr

/-- User document fields read when snapshotting a notification sender. -/
structure UserDoc where
  userId : String
  nickname : String
  profileImageUrl : Option String
  deriving DecidableEq, Repr

/-- The embedded sender snapshot written into a notification. -/
structure SenderInfo where
  userId : String
  nickname : String
  profileImageUrl : Option String
  deriving DecidableEq, Repr

/-- Notification document fields relevant to the self-delivery claim. -/
structure NotificationDoc where
  recipientId : String
  sender : SenderInfo
  ntype : NotifType
  targetId : String
  targetSummary : Option String
  deriving DecidableEq, Repr

/-- NotificationService.create_notification: drops the write silently when
recipient_id == sender_id; the system sender "system" is snapshotted as
the constant HappyDog identity; otherwise the sender user document is
read, and a missing sender also drops the write (logged warning). -/
def createNotification (users : String → Option UserDoc)
    (store : List NotificationDoc) (recipientId senderId : String)
    (ntype : NotifType) (targetId : String) (summary : Option String) :
    List NotificationDoc :=
  if recipientId = senderId then store
  else if senderId = "system" then
    ⟨recipientId, ⟨"system", "HappyDog", none⟩, ntype, targetId, summary⟩ :: store
  else
    match users senderId with
    | none => store
    | some u =>
      ⟨recipientId, ⟨u.userId, u.nickname, u.profileImageUrl⟩, ntype, targetId, summary⟩ :: store

/-- Notification phase of CommentService.create_comment
(app/api/comments/services.py lines 75-87): after the transaction commits,
one COMMENT notification to the post author, then one MENTION notification
per resolved mentioned user id. -/
def commentNotifyFanout (users : String → Option UserDoc)
    (store : List NotificationDoc) (postAuthorId authorId postId : String)
    (summary : Option String) (mentioned : List String) : List NotificationDoc :=
  let st1 := createNotification users store postAuthorId authorId .commentMade postId summary
  mentioned.foldl
    (fun st uid => createNotification users st uid authorId .mention postId summary) st1

/-- Notification phase of PostService.toggle_post_like (frontend
app/api/posts/services.py lines 156-164): only when the toggle liked and
the post author differs from the caller. -/
def postLikeNotify (users : String → Option UserDoc) (store : List NotificationDoc)
    (postAuthorId userId postId : String) (liked : Bool) : List NotificationDoc :=
  if liked ∧ postAuthorId ≠ userId then
    createNotification users store postAuthorId userId .postLike postId none
  else store

/-- Notification phase of CommentService.toggle_comment_like
(app/api/comments/services.py lines 167-173): when the toggle liked; the
self-delivery guard here lives inside create_notification alone. -/
def commentLikeNotify (users : String → Option UserDoc) (store : List NotificationDoc)
    (commentAuthorId userId commentId : String) (summary : Option String)
    (liked : Bool) : List NotificationDoc :=
  if liked then
    createNotification users store commentAuthorId userId .commentLike commentId summary
  else store

/-- Modelled from the spec: complete_cartoon_job_with_post and
fail_cartoon_job_with_notification are invoked from
app/api/cartoon_jobs/routes.py (process_cartoon_in_background) but their
definitions are not under src/; per spec sections 4.5 and 4.8 the cartoon
job terminal transitions emit CARTOON_SUCCESS or CARTOON_FAILED through
the fan-out helper with the system sender. -/
def cartoonTerminalNotify (users : String → Option UserDoc)
    (store : List NotificationDoc) (userId jobId : String) (ok : Bool) :
    List NotificationDoc :=
  createNotification users store userId "system"
    (if ok then .cartoonSuccess else .cartoonFailed) jobId none

/-- No stored notification has its recipient equal to its snapshotted
sender. -/
def noSelfDelivery (store : List NotificationDoc) : Prop :=
  ∀ n ∈ store, n.recipientId ≠ n.sender.userId

/-- Number of self-delivered notifications in the store. -/
def selfDeliveryCount (store : List NotificationDoc) : Nat :=
  (store.filter (fun n => n.recipientId == n.sender.userId)).length

/-- The users collection is keyed consistently: a user document's user_id
field equals its document id. -/
def usersWf (users : String → Option UserDoc) : Prop :=
  ∀ id u, users id = some u → u.userId = id

/-! ## Cartoon jobs
Embedding of CartoonJobService (pet_project_frontend
app/api/cartoon_jobs/services.py) and of the HTTP routes
(app/api/cartoon_jobs/routes.py). -/

/-- CartoonJobStatus (app/models/cartoon_job.py). -/
inductive JobStatus
  | processing
  | canceling
  | completed
  | failed
  deriving DecidableEq, Repr

/-- Cartoon job document fields relevant to ownership and the FSM. -/
structure JobDoc where
  userId : String
  status : JobStatus
  errorMessage : Option String
  deriving DecidableEq, Repr

/-- Errors of CartoonJobService.cancel_cartoon_job: FileNotFoundError for
a missing job, PermissionError for a non-owner, ValueError for a job not
in the processing state. -/
inductive CancelErr
  | notFound
  | forbidden
  | invalidState
  deriving DecidableEq, Repr

/-- CartoonJobService.cancel_cartoon_job (frontend
app/api/cartoon_jobs/services.py lines 60-95): ownership and state checks
in program order, then the status update to canceling. -/
def cancelCartoonJob (jobs : String → Option JobDoc) (uid jid : String) :
    Except CancelErr (JobDoc × (String → Option JobDoc)) :=
  match jobs jid with
  | none => .error .notFound
  | some job =>
    if job.userId ≠ uid then .error .forbidden
    else if job.status ≠ .processing then .error .invalidState
    else
      .ok ({ job with status := JobStatus.canceling },
        fun k => if k = jid then some { job with status := JobStatus.canceling } else jobs k)

/-- DELETE /api/cartoon-jobs/{job_id} (app/api/cartoon_jobs/routes.py
lines 107-127): PermissionError is mapped to 403 FORBIDDEN, ValueError to
409 INVALID_STATE_FOR_CANCEL, FileNotFoundError to 404 JOB_NOT_FOUND. -/
def cancelCartoonJobRoute (jobs : String → Option JobDoc) (uid jid : String) :
    Nat × String :=
  match cancelCartoonJob jobs uid jid with
  | .ok _ => (200, "OK")
  | .error .forbidden => (403, "FORBIDDEN")
  | .error .invalidState => (409, "INVALID_STATE_FOR_CANCEL")
  | .error .notFound => (404, "JOB_NOT_FOUND")

/-- CartoonJobService.get_job_by_id_and_owner (frontend
app/api/cartoon_jobs/services.py lines 49-58). -/
def getJobByIdAndOwner (jobs : String → Option JobDoc) (jid uid : String) :
    Option JobDoc :=
  match jobs jid with
  | none => none
  | some job => if job.userId = uid then some job else none

/-- GET /api/cartoon-jobs/{job_id} (app/api/cartoon_jobs/routes.py lines
89-104): a missing or non-owned job yields 404 JOB_NOT_FOUND_OR_FORBIDDEN. -/
def getCartoonJobRoute (jobs : String → Option JobDoc) (uid jid : String) :
    Nat × String :=
  match getJobByIdAndOwner jobs jid uid with
  | none => (404, "JOB_NOT_FOUND_OR_FORBIDDEN")
  | some _ => (200, "OK")

/-- Modelled from the spec (worker side): the terminal transitions
complete_cartoon_job_with_post and fail_cartoon_job_with_notification are
only called, not defined, under src/; per spec section 4.8 the worker
moves a non-terminal job to COMPLETED on success, and COMPLETED and
FAILED are terminal (transitions from them are no-ops). -/
def completeJob (job : JobDoc) : JobDoc :=
  if job.status = .completed ∨ job.status = .failed then job
  else { job with status := JobStatus.completed }

/-- Modelled from the spec (worker side), as completeJob: the worker moves
a non-terminal job (PROCESSING on pipeline error, CANCELING at a
cancellation checkpoint) to FAILED with an error message. -/
def failJob (job : JobDoc) (msg : String) : JobDoc :=
  if job.status = .completed ∨ job.status = .failed then job
  else { job with status := JobStatus.failed, errorMessage := some msg }

/-- Single-job transitions generated by the operations: the user cancel
(guarded by ownership and the processing state, from cancel_cartoon_job)
and the worker terminal transitions. -/
inductive jobStep : JobDoc → JobDoc → Prop
  | cancelStep (job : JobDoc) (h : job.status = JobStatus.processing) :
      jobStep job { job with status := JobStatus.canceling }
  | completeStep (job : JobDoc) : jobStep job (completeJob job)
  | failStep (job : JobDoc) (msg : String) : jobStep job (failJob job msg)

/-- Position of a status along the FSM: PROCESSING before CANCELING before
the terminal states. -/
def statusRank : JobStatus → Nat
  | .processing => 0
  | .canceling => 1
  | .completed => 2
  | .failed => 2

/-! ## Pet registration and care settings
Embedding of PetService.create_pet and PetService._generate_care_settings
(app/api/pets/services.py lines 52-79 and 200-318) together with
BreedService.breed_exists and BreedService.get_breed_ideal_weight
(app/api/breeds/services.py).  Python floats carrying small decimal
values are modelled as exact rationals; the float power
ideal_weight ** 0.75 is modelled by the exact rational 3/4 power, which
exists only for some inputs, so the settings generator returns an Option
and the theorems are stated where the power is exact. -/

/-- PetGender (app/models/pet.py). -/
inductive PetGender
  | male
  | female
  deriving DecidableEq, Repr

/-- ActivityLevel: the enum class is imported by app/api/pets/services.py
but its definition is not under src/; its members are taken from the
accesses in _calculate_mer_multiplier (INACTIVE, LIGHT, MODERATE, ACTIVE,
VERY_ACTIVE). -/
inductive ActivityKind
  | inactive
  | light
  | moderate
  | active
  | veryActive
  deriving DecidableEq, Repr

/-- DietType: likewise only its members WET_FOOD and MIXED appear in
_calculate_water_intake; every other value falls to the default arm. -/
inductive DietKind
  | wetFood
  | mixed
  | dryFood
  deriving DecidableEq, Repr

/-- Breed document: weight_kg holds per-gender ideal weights under the
lowercased gender keys, either of which may be absent. -/
structure BreedData where
  maleWeight : Option ℚ
  femaleWeight : Option ℚ
  deriving DecidableEq, Repr

/-- BreedService.get_breed_ideal_weight (app/api/breeds/services.py lines
183-212): None when the breed document or its gender key is missing. -/
def getBreedIdealWeight (breeds : String → Option BreedData) (breed : String)
    (g : PetGender) : Option ℚ :=
  match breeds breed with
  | none => none
  | some bd =>
    match g with
    | .male => bd.maleWeight
    | .female => bd.femaleWeight

/-- Registration inputs of create_pet (fields of the Pet object built in
app/api/pets/routes.py lines 32-47 that _generate_care_settings reads;
birthdate is kept as its year and month, which are all the age
computation uses). -/
structure PetReg where
  petId : String
  userId : String
  breed : String
  gender : PetGender
  birthdate : Option (Int × Int)
  activityLevel : Option ActivityKind
  dietType : Option DietKind
  isNeutered : Option Bool
  currentWeight : Option ℚ
  deriving DecidableEq, Repr

/-- Python round (banker's rounding, round-half-to-even) on an exact
rational, computed on the numerator and denominator. -/
def pyRound (q : ℚ) : Int :=
  let n := q.num
  let d : Int := q.den
  let f := Int.fdiv n d
  let r := n - f * d
  if 2 * r < d then f
  else if d < 2 * r then f + 1
  else if f % 2 = 0 then f else f + 1

/-- Python round(x, 1). -/
def pyRound1 (q : ℚ) : ℚ := mkRat (pyRound (q * 10)) 10

/-- Bounded search for an exact fourth root. -/
def find4root (n : Nat) : Nat → Nat → Option Nat
  | 0, _ => none
  | fuel + 1, r =>
    if r ^ 4 = n then some r
    else if n < r ^ 4 then none
    else find4root n fuel (r + 1)

/-- Exact fourth root of a natural number, when it exists. -/
def nat4root? (n : Nat) : Option Nat := find4root n (n + 1) 0

/-- Exact rational q ^ (3/4), when it exists: models the Python float
power ideal_weight ** 0.75 at the inputs where that power is exact. -/
def ratPow34? (q : ℚ) : Option ℚ :=
  if q < 0 then none
  else
    let c := q ^ 3
    match nat4root? c.num.toNat, nat4root? c.den with
    | some rn, some rd => some (mkRat rn rd)
    | _, _ => none

/-- PetService._calculate_mer_multiplier (app/api/pets/services.py lines
280-306). -/
def merMultiplier (pet : PetReg) (ageMonths : Int) : ℚ :=
  if ageMonths < 4 then 3
  else if ageMonths < 12 then 2
  else
    match pet.activityLevel with
    | some .inactive => mkRat 14 10
    | some .light => 2
    | some .moderate => 3
    | some .active => 6
    | some .veryActive => 6
    | none =>
      match pet.isNeutered with
      | some true => mkRat 16 10
      | some false => mkRat 18 10
      | none => mkRat 16 10

/-- PetService._calculate_water_intake (app/api/pets/services.py lines
308-318). -/
def waterIntake (merCalories : ℚ) (diet : Option DietKind) : ℚ :=
  match diet with
  | some .wetFood => merCalories * mkRat 4 10
  | some .mixed => merCalories * mkRat 7 10
  | _ => merCalories

/-- The care-settings dictionary produced by _generate_care_settings
(app/api/pets/services.py lines 250-260); the generated_at timestamp is
omitted. -/
structure CareSettings where
  foodIncrement : Int
  waterIncrement : Int
  activityIncrement : Int
  recommendedCalories : ℚ
  recommendedWaterMl : ℚ
  idealWeightKg : ℚ
  ageMonths : Int
  merMultiplier : ℚ
  deriving DecidableEq, Repr

/-- PetService._generate_care_settings (app/api/pets/services.py lines
200-263), with the breed service injected and today supplied as (year,
month).  age_months = max(0, (ty - by)*12 + (tm - bm)) or 12 without a
birthdate; ideal_weight defaults to 15.0 and takes the breed ideal weight
only when that lookup is truthy (present and nonzero); rer = 70 *
ideal_weight ** 0.75; mer = rer * multiplier; water by diet type;
food_increment = max(25, round(mer * 0.05)); water_increment = max(50,
round(water * 0.1)); activity_increment = 15 under 12 months else 30.
None is returned only when the float power has no exact rational model. -/
def genCareSettings (breeds : String → Option BreedData) (today : Int × Int)
    (pet : PetReg) : Option CareSettings :=
  let ageMonths : Int :=
    match pet.birthdate with
    | some bd => max 0 ((today.1 - bd.1) * 12 + (today.2 - bd.2))
    | none => 12
  let idealWeight : ℚ :=
    if pet.breed ≠ "" then
      match getBreedIdealWeight breeds pet.breed pet.gender with
      | some w => if w ≠ 0 then w else 15
      | none => 15
    else 15
  match ratPow34? idealWeight with
  | none => none
  | some p =>
    let rer := 70 * p
    let mult := merMultiplier pet ageMonths
    let mer := rer * mult
    let water := waterIntake mer pet.dietType
    some
      { foodIncrement := max 25 (pyRound (mer * mkRat 5 100)),
        waterIncrement := max 50 (pyRound (water * mkRat 1 10)),
        activityIncrement := if ageMonths < 12 then 15 else 30,
        recommendedCalories := pyRound1 mer,
        recommendedWaterMl := pyRound1 water,
        idealWeightKg := idealWeight,
        ageMonths := ageMonths,
        merMultiplier := mult }

/-- The ValueError create_pet raises for an unknown breed. -/
inductive CreatePetErr
  | validationError
  deriving DecidableEq, Repr

/-- PetService.create_pet (app/api/pets/services.py lines 52-79): breed
validation happens before any write, so a rejected registration writes
nothing; otherwise exactly one pets document is written (its id listed in
the second component) with the generated care settings embedded under the
care_settings key. -/
def createPet (breeds : String → Option BreedData) (today : Int × Int)
    (pet : PetReg) : Except CreatePetErr (Option CareSettings) × List String :=
  if ¬ (breeds pet.breed).isSome then (.error .validationError, [])
  else (.ok (genCareSettings breeds today pet), [pet.petId])

/-- The seeding formulas the claim asserts, written from the claim text
for comparison (they match PetCareSettingService.
create_initial_settings_transactional in
app/api/pet_care/settings/services.py lines 17-55, a function create_pet
never calls): water_bowl_capacity_ml = round(weight * 60) and
water_increment_ml = max(1, round(capacity * 0.2)). -/
def claimWaterBowlCapacity (weightKg : ℚ) : Int := pyRound (weightKg * 60)

/-- Claimed water increment, from the claim text (see
claimWaterBowlCapacity). -/
def claimWaterIncrement (weightKg : ℚ) : Int :=
  max 1 (pyRound ((claimWaterBowlCapacity weightKg : ℚ) * mkRat 2 10))

/-- Document written to the pet_settings collection by
PetCareSettingService.create_initial_settings_transactional
(app/api/pet_care/settings/services.py lines 17-55); timestamps omitted. -/
structure PetSettingsDoc where
  goalWeight : ℚ
  waterBowlCapacity : Int
  waterIncrementAmount : Int
  goalActivityMinutes : Int
  activityIncrementMinutes : Int
  goalMealCount : Int
  mealIncrementCount : Int
  deriving DecidableEq, Repr

/-- PetCareSettingService.create_initial_settings_transactional
(app/api/pet_care/settings/services.py lines 17-55): goal weight is the
breed ideal weight when not None else the current weight;
waterBowlCapacity = round(current_weight * 60); waterIncrementAmount =
max(1, round(capacity * 0.2)); fixed activity and meal goals.  No
function under src/ calls it. -/
def createInitialSettingsTransactional (breeds : String → Option BreedData)
    (gender : PetGender) (breed : String) (currentWeight : ℚ) : PetSettingsDoc :=
  let goalWeight : ℚ :=
    match getBreedIdealWeight breeds breed gender with
    | some w => w
    | none => currentWeight
  let capacity : Int := pyRound (currentWeight * 60)
  { goalWeight := goalWeight,
    waterBowlCapacity := capacity,
    waterIncrementAmount := max 1 (pyRound ((capacity : ℚ) * mkRat 2 10)),
    goalActivityMinutes := 30,
    activityIncrementMinutes := 10,
    goalMealCount := 3,
    mealIncrementCount := 1 }

/-! ## Post creation and paginated listings
Embedding of PostService.create_post, PostService.get_posts and
PostService.get_posts_by_user_id (pet_project_frontend
app/api/posts/services.py) with the POST /api/posts route
(app/api/posts/routes.py lines 12-35), and of
CommentService.get_comments_for_post (app/api/comments/services.py lines
90-109). -/

/-- Object-storage effects a service may perform while building a post. -/
inductive StorageEffect
  | existsCheck (key : String)
  | makePublicKey (key : String)
  deriving DecidableEq, Repr

/-- Pet document fields create_post reads (the where query matches on the
user_id field, the snapshot copies pet_id and friends). -/
structure PetSnapshotSrc where
  userId : String
  petId : String
  name : String
  breed : String
  deriving DecidableEq, Repr

/-- The Post document create_post writes (denormalized author and pet
snapshots, image urls and text; counters start at 0). -/
structure PostDocOut where
  postId : String
  authorUserId : String
  authorNickname : String
  petId : String
  imageUrls : List String
  text : String
  deriving DecidableEq, Repr

/-- PostService.create_post (pet_project_frontend
app/api/posts/services.py lines 26-52): a missing user or a user with no
pet returns None; otherwise one Post document is written whose image_urls
field is the file_paths list exactly as passed in.  The effect list holds
every object-storage call the function makes. -/
def createPost (users : String → Option UserDoc) (pets : List PetSnapshotSrc)
    (uid : String) (text : String) (filePaths : List String) (postId : String) :
    Option PostDocOut × List StorageEffect :=
  match users uid with
  | none => (none, [])
  | some user =>
    match pets.find? (fun p => p.userId == uid) with
    | none => (none, [])
    | some pet =>
      (some { postId := postId, authorUserId := uid, authorNickname := user.nickname,
              petId := pet.petId, imageUrls := filePaths, text := text }, [])

/-- POST /api/posts (app/api/posts/routes.py lines 12-35): a None from the
service raises ValueError, answered 404 RESOURCE_NOT_FOUND; success is
201. -/
def createPostRoute (users : String → Option UserDoc) (pets : List PetSnapshotSrc)
    (uid : String) (text : String) (filePaths : List String) (postId : String) :
    Nat × String :=
  match (createPost users pets uid text filePaths postId).1 with
  | none => (404, "RESOURCE_NOT_FOUND")
  | some _ => (201, "CREATED")

/-- A document as seen by an ordered feed query: its id and the created_at
sort key. -/
structure FeedDoc where
  docId : String
  createdAt : Int
  deriving DecidableEq, Repr

/-- Firestore start_after position for a created_at DESC query: d sorts
after the cursor document when its created_at is smaller, with the
document id as tiebreaker. -/
def afterInFeedDesc (d cdoc : FeedDoc) : Bool :=
  d.createdAt < cdoc.createdAt ∨ (d.createdAt = cdoc.createdAt ∧ cdoc.docId < d.docId)

/-- Firestore start_after position for a created_at ASC query. -/
def afterInFeedAsc (d cdoc : FeedDoc) : Bool :=
  cdoc.createdAt < d.createdAt ∨ (d.createdAt = cdoc.createdAt ∧ cdoc.docId < d.docId)

/-- Cursor handling shared by PostService.get_posts (lines 54-62) and
PostService.get_posts_by_user_id (lines 182-200): ordered is the
created_at DESC view of the queried collection and lookup the direct
document fetch posts_ref.document(cursor).get(); a cursor naming no
existing document leaves the query untouched (the start_after call is
guarded by cursor_doc.exists). -/
def feedQuery (ordered : List FeedDoc) (lookup : String → Option FeedDoc)
    (limit : Nat) (cursor : Option String) : List FeedDoc :=
  let q :=
    match cursor with
    | none => ordered
    | some c =>
      match lookup c with
      | none => ordered
      | some cdoc => ordered.filter (fun d => afterInFeedDesc d cdoc)
  q.take limit

/-- Cursor handling of CommentService.get_comments_for_post
(app/api/comments/services.py lines 90-98): created_at ASC with the same
existence-guarded start_after. -/
def commentsQuery (ordered : List FeedDoc) (lookup : String → Option FeedDoc)
    (limit : Nat) (cursor : Option String) : List FeedDoc :=
  let q :=
    match cursor with
    | none => ordered
    | some c =>
      match lookup c with
      | none => ordered
      | some cdoc => ordered.filter (fun d => afterInFeedAsc d cdoc)
  q.take limit

/-! ## Theorems -/

/-! Helper lemmas about the likes collection. -/

theorem lookupLike_eq_none_iff (likes : List (LikeKey × LikeDoc)) (k : LikeKey) :
    lookupLike likes k = none ↔ k ∉ likes.map Prod.fst := by
  induction likes with
  | nil => simp [lookupLike]
  | cons e rest ih =>
    by_cases h : e.1 = k
    · simp [lookupLike, h]
    · simp [lookupLike, h, ih, Ne.symm h]

theorem removeLike_of_lookup_none (likes : List (LikeKey × LikeDoc)) (k : LikeKey)
    (h : lookupLike likes k = none) : removeLike likes k = likes := by
  induction likes with
  | nil => rfl
  | cons e rest ih =>
    by_cases he : e.1 = k
    · simp [lookupLike, he] at h
    · simp only [lookupLike, if_neg he] at h
      simp [removeLike, he, ih h]

theorem lookupLike_removeLike_self (likes : List (LikeKey × LikeDoc)) (k : LikeKey) :
    lookupLike (removeLike likes k) k = none := by
  induction likes with
  | nil => rfl
  | cons e rest ih =>
    by_cases he : e.1 = k
    · simp [removeLike, he, ih]
    · simp [removeLike, lookupLike, he, ih]

theorem mem_removeLike {likes : List (LikeKey × LikeDoc)} {k : LikeKey}
    {x : LikeKey × LikeDoc} (hx : x ∈ removeLike likes k) : x ∈ likes := by
  induction likes with
  | nil => exact hx
  | cons e rest ih =>
    by_cases he : e.1 = k
    · simp only [removeLike, if_pos he] at hx
      exact List.mem_cons_of_mem _ (ih hx)
    · simp only [removeLike, if_neg he] at hx
      rcases List.mem_cons.mp hx with h1 | h2
      · exact h1 ▸ List.mem_cons_self _ _
      · exact List.mem_cons_of_mem _ (ih h2)

theorem lookupLike_removeLike_ne (likes : List (LikeKey × LikeDoc)) {k k' : LikeKey}
    (h : k' ≠ k) : lookupLike (removeLike likes k) k' = lookupLike likes k' := by
  induction likes with
  | nil => rfl
  | cons e rest ih =>
    by_cases he : e.1 = k
    · simp [removeLike, lookupLike, he, Ne.symm h, ih]
    · by_cases he' : e.1 = k'
      · simp [removeLike, lookupLike, he, he', h]
      · simp [removeLike, lookupLike, he, he', ih]

theorem likesWf_removeLike (likes : List (LikeKey × LikeDoc)) (k : LikeKey)
    (hw : likesWf likes) : likesWf (removeLike likes k) := by
  induction likes with
  | nil => exact hw
  | cons e rest ih =>
    rw [likesWf, List.map_cons, List.nodup_cons] at hw
    by_cases he : e.1 = k
    · simp only [removeLike, if_pos he]
      exact ih hw.2
    · simp only [removeLike, if_neg he]
      rw [likesWf, List.map_cons, List.nodup_cons]
      refine ⟨?_, ih hw.2⟩
      intro hmem
      apply hw.1
      rcases List.mem_map.mp hmem with ⟨x, hx, hx1⟩
      exact List.mem_map.mpr ⟨x, mem_removeLike hx, hx1⟩

theorem likesWf_cons (likes : List (LikeKey × LikeDoc)) (k : LikeKey) (d : LikeDoc)
    (hw : likesWf likes) (h : lookupLike likes k = none) :
    likesWf ((k, d) :: likes) := by
  rw [likesWf, List.map_cons, List.nodup_cons]
  exact ⟨(lookupLike_eq_none_iff likes k).mp h, hw⟩

theorem countLikes_removeLike_match (likes : List (LikeKey × LikeDoc)) (k : LikeKey)
    (d : LikeDoc) (hw : likesWf likes) (h : lookupLike likes k = some d) :
    countLikes likes k.subjType k.subjectId =
      countLikes (removeLike likes k) k.subjType k.subjectId + 1 := by
  induction likes with
  | nil => simp [lookupLike] at h
  | cons e rest ih =>
    rw [likesWf, List.map_cons, List.nodup_cons] at hw
    by_cases he : e.1 = k
    · have hnone : lookupLike rest k = none := by
        rw [lookupLike_eq_none_iff]
        rw [he] at hw
        exact hw.1
      simp only [removeLike, if_pos he, removeLike_of_lookup_none rest k hnone]
      simp [countLikes, he]
      omega
    · simp only [lookupLike, if_neg he] at h
      simp only [removeLike, if_neg he, countLikes]
      rw [ih hw.2 h]
      omega

theorem countLikes_removeLike_other (likes : List (LikeKey × LikeDoc)) (k : LikeKey)
    (t : SubjectType) (sid : String) (h : ¬ (k.subjType = t ∧ k.subjectId = sid)) :
    countLikes (removeLike likes k) t sid = countLikes likes t sid := by
  induction likes with
  | nil => rfl
  | cons e rest ih =>
    by_cases he : e.1 = k
    · have hcond : ¬ (e.1.subjType = t ∧ e.1.subjectId = sid) := by rw [he]; exact h
      simp [removeLike, he, countLikes, hcond, ih]
      exact fun h1 h2 => h ⟨h1, h2⟩
    · simp [removeLike, he, countLikes, ih]

/-! Helper lemmas for notifications and the job FSM. -/

theorem createNotification_preserves (users : String → Option UserDoc)
    (store : List NotificationDoc) (r snd : String) (t : NotifType)
    (tid : String) (summ : Option String) (hu : usersWf users)
    (h0 : noSelfDelivery store) :
    noSelfDelivery (createNotification users store r snd t tid summ) := by
  unfold createNotification
  by_cases hrs : r = snd
  · simp only [if_pos hrs]; exact h0
  · simp only [if_neg hrs]
    by_cases hsys : snd = "system"
    · simp only [if_pos hsys]
      intro n hn
      rcases List.mem_cons.mp hn with h1 | h2
      · subst h1
        show r ≠ "system"
        rw [← hsys]
        exact hrs
      · exact h0 n h2
    · simp only [if_neg hsys]
      cases husr : users snd with
      | none => exact h0
      | some u =>
        intro n hn
        rcases List.mem_cons.mp hn with h1 | h2
        · subst h1
          show r ≠ u.userId
          rw [hu snd u husr]
          exact hrs
        · exact h0 n h2

theorem mentionFold_preserves (users : String → Option UserDoc)
    (authorId postId : String) (summ : Option String) (hu : usersWf users) :
    ∀ (mentioned : List String) (st : List NotificationDoc), noSelfDelivery st →
      noSelfDelivery (mentioned.foldl
        (fun st uid => createNotification users st uid authorId .mention postId summ) st) := by
  intro mentioned
  induction mentioned with
  | nil => intro st h; exact h
  | cons uid rest ih =>
    intro st h
    exact ih _ (createNotification_preserves users st uid authorId .mention postId summ hu h)

theorem selfDeliveryCount_eq_zero (store : List NotificationDoc)
    (h : noSelfDelivery store) : selfDeliveryCount store = 0 := by
  induction store with
  | nil => rfl
  | cons n rest ih =>
    have hn := h n (List.mem_cons_self _ _)
    have hrest : noSelfDelivery rest := fun m hm => h m (List.mem_cons_of_mem _ hm)
    unfold selfDeliveryCount
    rw [List.filter_cons]
    have hb : (n.recipientId == n.sender.userId) = false := beq_eq_false_iff_ne.mpr hn
    rw [hb]
    simp only [Bool.false_eq_true, if_false]
    exact ih hrest

theorem stepRank (a b : JobDoc) (h : jobStep a b) :
    b.status = a.status ∨ statusRank a.status < statusRank b.status := by
  cases h with
  | cancelStep hp => right; rw [hp]; simp [statusRank]
  | completeStep =>
    cases hj : a.status <;> simp [completeJob, hj, statusRank]
  | failStep msg =>
    cases hj : a.status <;> simp [failJob, hj, statusRank]

/-- C1, counterexample: the claim classifies a search distance of exactly
1.2 (distance ≥ OUTLIER_THRESHOLD) as INVALID_IMAGE, but process_image
uses a strict comparison (distance > self.outlier_threshold) and returns
SUCCESS at that distance. -/
theorem c1_outlier_boundary_counterexample :
    mkRat 12 10 ≥ outlierThreshold ∧
    (processImage 1 0 (mkRat 12 10)).status = NoseStatus.success ∧
    (processImage 1 0 (mkRat 12 10)).status ≠ NoseStatus.invalidImage := by
  refine ⟨?_, ?_, ?_⟩ <;> decide

/-- C1, amended: for an admission of an unverified owned pet, an empty
index yields SUCCESS with ordinal 0 and no search; otherwise distance ≤
0.7 yields DUPLICATE with no effects, distance strictly greater than 1.2
yields INVALID_IMAGE with no effects, and 0.7 < distance ≤ 1.2 yields
SUCCESS with ordinal_id = count. -/
theorem c1_admission_classification
    (pets : String → Option PetDoc) (petId uid key : String)
    (ntotal nearestId : Nat) (dist : ℚ) (publicUrl : String → String)
    (pet : PetDoc) (hpet : pets petId = some pet) (hown : pet.userId = uid)
    (hunv : pet.isVerified = false) :
    (ntotal = 0 →
      (registerNosePrint pets petId uid key true ntotal nearestId dist publicUrl).1 =
        AdmissionOutcome.success ∧
      (processImage ntotal nearestId dist).faissId = some 0 ∧
      searchIssued ntotal = false) ∧
    (ntotal ≠ 0 → dist ≤ duplicateThreshold →
      registerNosePrint pets petId uid key true ntotal nearestId dist publicUrl =
        (AdmissionOutcome.duplicate, [])) ∧
    (ntotal ≠ 0 → outlierThreshold < dist →
      registerNosePrint pets petId uid key true ntotal nearestId dist publicUrl =
        (AdmissionOutcome.invalidImage, [])) ∧
    (ntotal ≠ 0 → duplicateThreshold < dist → dist ≤ outlierThreshold →
      (registerNosePrint pets petId uid key true ntotal nearestId dist publicUrl).1 =
        AdmissionOutcome.success ∧
      (processImage ntotal nearestId dist).faissId = some ntotal) := by
  refine ⟨?_, ?_, ?_, ?_⟩
  · intro h0
    simp [registerNosePrint, hpet, hown, hunv, processImage, searchIssued, h0]
  · intro h0 hd
    simp [registerNosePrint, hpet, hown, hunv, processImage, h0, hd]
  · intro h0 hd
    have h1 : ¬ dist ≤ duplicateThreshold := by
      have h2 : duplicateThreshold < dist :=
        lt_of_le_of_lt (by norm_num [duplicateThreshold, outlierThreshold]) hd
      exact not_le.mpr h2
    simp [registerNosePrint, hpet, hown, hunv, processImage, h0, hd, h1]
  · intro h0 hd ho
    simp [registerNosePrint, hpet, hown, hunv, processImage, h0,
      not_le.mpr hd, not_lt.mpr ho]

/-- C1, witness for the amended classification at concrete inputs. -/
theorem c1_admission_classification_witness :
    ((1 : Nat) = 0 →
      (registerNosePrint (fun _ => some (PetDoc.mk "u1" false none none)) "p1" "u1" "k" true 1 0 (mkRat 9 10) id).1 =
        AdmissionOutcome.success ∧
      (processImage 1 0 (mkRat 9 10)).faissId = some 0 ∧
      searchIssued 1 = false) ∧
    ((1 : Nat) ≠ 0 → mkRat 9 10 ≤ duplicateThreshold →
      registerNosePrint (fun _ => some (PetDoc.mk "u1" false none none)) "p1" "u1" "k" true 1 0 (mkRat 9 10) id =
        (AdmissionOutcome.duplicate, [])) ∧
    ((1 : Nat) ≠ 0 → outlierThreshold < mkRat 9 10 →
      registerNosePrint (fun _ => some (PetDoc.mk "u1" false none none)) "p1" "u1" "k" true 1 0 (mkRat 9 10) id =
        (AdmissionOutcome.invalidImage, [])) ∧
    ((1 : Nat) ≠ 0 → duplicateThreshold < mkRat 9 10 → mkRat 9 10 ≤ outlierThreshold →
      (registerNosePrint (fun _ => some (PetDoc.mk "u1" false none none)) "p1" "u1" "k" true 1 0 (mkRat 9 10) id).1 =
        AdmissionOutcome.success ∧
      (processImage 1 0 (mkRat 9 10)).faissId = some 1) :=
  c1_admission_classification (fun _ => some (PetDoc.mk "u1" false none none))
    "p1" "u1" "k" 1 0 (mkRat 9 10) id (PetDoc.mk "u1" false none none) rfl rfl rfl

/-- C2: whenever register_nose_print_for_pet reports SUCCESS, its effect
trace is exactly make_public, then the pet-document commit carrying
is_verified, the public url and the ordinal id, then the vector insert;
consequently every crash prefix of the trace that contains the vector
insert already contains the pet commit, so no execution leaves a vector
in the index without a committed owning pet. -/
theorem c2_commit_precedes_vector_insert
    (pets : String → Option PetDoc) (petId uid key : String) (downloadOk : Bool)
    (ntotal nearestId : Nat) (dist : ℚ) (publicUrl : String → String)
    (h : (registerNosePrint pets petId uid key downloadOk ntotal nearestId dist publicUrl).1 =
      AdmissionOutcome.success) :
    (registerNosePrint pets petId uid key downloadOk ntotal nearestId dist publicUrl).2 =
      [AdmissionEffect.makePublic key,
       AdmissionEffect.commitPet petId (publicUrl key)
         ((processImage ntotal nearestId dist).faissId.getD 0),
       AdmissionEffect.addVector] ∧
    ∀ n, AdmissionEffect.addVector ∈
        ((registerNosePrint pets petId uid key downloadOk ntotal nearestId dist publicUrl).2.take n) →
      AdmissionEffect.commitPet petId (publicUrl key)
          ((processImage ntotal nearestId dist).faissId.getD 0) ∈
        ((registerNosePrint pets petId uid key downloadOk ntotal nearestId dist publicUrl).2.take n) := by
  have heff : (registerNosePrint pets petId uid key downloadOk ntotal nearestId dist publicUrl).2 =
      [AdmissionEffect.makePublic key,
       AdmissionEffect.commitPet petId (publicUrl key)
         ((processImage ntotal nearestId dist).faissId.getD 0),
       AdmissionEffect.addVector] := by
    revert h
    unfold registerNosePrint
    split
    · intro hx; simp at hx
    · split
      · intro hx; simp at hx
      · split
        · intro hx; simp at hx
        · split
          · intro hx; simp at hx
          · split
            · intro _; rfl
            · split
              · intro hx; simp at hx
              · split
                · intro hx; simp at hx
                · intro hx; simp at hx
  refine ⟨heff, ?_⟩
  intro n hn
  rw [heff] at hn ⊢
  match n with
  | 0 => simp at hn
  | 1 => simp [List.take] at hn
  | 2 => simp [List.take] at hn
  | (m+3) => simp [List.take] at hn ⊢

/-- C3: for an existing subject (post or comment), one toggle deletes the
deterministic like document and applies increment -1 when the like
exists, and creates the like document and applies increment +1 when it
does not; toggling twice therefore restores the subject's like_count and
the set of like documents present. -/
theorem c3_like_toggle_involution (s : SocialState) (uid sid : String) (n1 n2 : Nat) :
    (∀ post, s.posts sid = some post →
      (∀ d, lookupLike s.likes ⟨SubjectType.post, uid, sid⟩ = some d →
        ∃ s1, togglePostLike s uid sid n1 = Except.ok (false, s1) ∧
          s1.posts sid = some { post with likeCount := firestoreIncrement post.likeCount (-1) } ∧
          ∃ s2, togglePostLike s1 uid sid n2 = Except.ok (true, s2) ∧
            (∀ p, s2.posts p = s.posts p) ∧
            (∀ c, s2.comments c = s.comments c) ∧
            (∀ k, (lookupLike s2.likes k).isSome = (lookupLike s.likes k).isSome)) ∧
      (lookupLike s.likes ⟨SubjectType.post, uid, sid⟩ = none →
        ∃ s1, togglePostLike s uid sid n1 = Except.ok (true, s1) ∧
          s1.posts sid = some { post with likeCount := firestoreIncrement post.likeCount 1 } ∧
          lookupLike s1.likes ⟨SubjectType.post, uid, sid⟩ = some ⟨uid, sid, n1⟩ ∧
          ∃ s2, togglePostLike s1 uid sid n2 = Except.ok (false, s2) ∧
            (∀ p, s2.posts p = s.posts p) ∧
            (∀ c, s2.comments c = s.comments c) ∧
            s2.likes = s.likes)) ∧
    (∀ c, s.comments sid = some c →
      (∀ d, lookupLike s.likes ⟨SubjectType.comment, uid, sid⟩ = some d →
        ∃ s1, toggleCommentLike s uid sid n1 = Except.ok (false, s1) ∧
          s1.comments sid = some { c with likeCount := firestoreIncrement c.likeCount (-1) } ∧
          ∃ s2, toggleCommentLike s1 uid sid n2 = Except.ok (true, s2) ∧
            (∀ p, s2.posts p = s.posts p) ∧
            (∀ c2, s2.comments c2 = s.comments c2) ∧
            (∀ k, (lookupLike s2.likes k).isSome = (lookupLike s.likes k).isSome)) ∧
      (lookupLike s.likes ⟨SubjectType.comment, uid, sid⟩ = none →
        ∃ s1, toggleCommentLike s uid sid n1 = Except.ok (true, s1) ∧
          s1.comments sid = some { c with likeCount := firestoreIncrement c.likeCount 1 } ∧
          lookupLike s1.likes ⟨SubjectType.comment, uid, sid⟩ = some ⟨uid, sid, n1⟩ ∧
          ∃ s2, toggleCommentLike s1 uid sid n2 = Except.ok (false, s2) ∧
            (∀ p, s2.posts p = s.posts p) ∧
            (∀ c2, s2.comments c2 = s.comments c2) ∧
            s2.likes = s.likes)) := by
  constructor
  · intro post hp
    constructor
    · intro d hlike
      simp only [togglePostLike, hp, hlike]
      refine ⟨_, rfl, by simp, ?_⟩
      simp only [togglePostLike]
      simp only [if_pos rfl, lookupLike_removeLike_self, lookupLike]
      refine ⟨_, rfl, ?_, fun c => rfl, ?_⟩
      · intro p
        by_cases hps : p = sid
        · subst hps
          rw [hp]
          simp [firestoreIncrement]
        · simp [hps]
      · intro k
        by_cases hk : k = ⟨SubjectType.post, uid, sid⟩
        · subst hk
          simp [lookupLike, hlike]
        · have hk' : (⟨SubjectType.post, uid, sid⟩ : LikeKey) ≠ k := fun hx => hk hx.symm
          simp only [lookupLike, if_neg hk']
          rw [lookupLike_removeLike_ne _ hk]
    · intro hlike
      simp only [togglePostLike, hp, hlike]
      refine ⟨_, rfl, by simp, by simp [lookupLike], ?_⟩
      simp only [togglePostLike]
      simp only [if_pos rfl, lookupLike]
      refine ⟨_, rfl, ?_, fun c => rfl, ?_⟩
      · intro p
        by_cases hps : p = sid
        · subst hps
          rw [hp]
          simp [firestoreIncrement]
        · simp [hps]
      · simp only [removeLike, if_pos rfl]
        exact removeLike_of_lookup_none _ _ hlike
  · intro c hc
    constructor
    · intro d hlike
      simp only [toggleCommentLike, hc, hlike]
      refine ⟨_, rfl, by simp, ?_⟩
      simp only [toggleCommentLike]
      simp only [if_pos rfl, lookupLike_removeLike_self, lookupLike]
      refine ⟨_, rfl, fun p => rfl, ?_, ?_⟩
      · intro c2
        by_cases hcs : c2 = sid
        · subst hcs
          rw [hc]
          simp [firestoreIncrement]
        · simp [hcs]
      · intro k
        by_cases hk : k = ⟨SubjectType.comment, uid, sid⟩
        · subst hk
          simp [lookupLike, hlike]
        · have hk' : (⟨SubjectType.comment, uid, sid⟩ : LikeKey) ≠ k := fun hx => hk hx.symm
          simp only [lookupLike, if_neg hk']
          rw [lookupLike_removeLike_ne _ hk]
    · intro hlike
      simp only [toggleCommentLike, hc, hlike]
      refine ⟨_, rfl, by simp, by simp [lookupLike], ?_⟩
      simp only [toggleCommentLike]
      simp only [if_pos rfl, lookupLike]
      refine ⟨_, rfl, fun p => rfl, ?_, ?_⟩
      · intro c2
        by_cases hcs : c2 = sid
        · subst hcs
          rw [hc]
          simp [firestoreIncrement]
        · simp [hcs]
      · simp only [removeLike, if_pos rfl]
        exact removeLike_of_lookup_none _ _ hlike

/-- C3, witness: at a concrete state holding one post with like_count 2
and an existing like by the toggling user. -/
theorem c3_like_toggle_involution_witness :
    ∃ s1, togglePostLike
        (SocialState.mk (fun p => if p = "p1" then some (PostSocialDoc.mk "a" 2 0) else none)
          (fun _ => none)
          [(LikeKey.mk SubjectType.post "u1" "p1", LikeDoc.mk "u1" "p1" 3)]) "u1" "p1" 7 =
        Except.ok (false, s1) ∧
      s1.posts "p1" = some { PostSocialDoc.mk "a" 2 0 with
        likeCount := firestoreIncrement (PostSocialDoc.mk "a" 2 0).likeCount (-1) } ∧
      ∃ s2, togglePostLike s1 "u1" "p1" 8 = Except.ok (true, s2) ∧
        (∀ p, s2.posts p =
          (SocialState.mk (fun p => if p = "p1" then some (PostSocialDoc.mk "a" 2 0) else none)
            (fun _ => none)
            [(LikeKey.mk SubjectType.post "u1" "p1", LikeDoc.mk "u1" "p1" 3)]).posts p) ∧
        (∀ c, s2.comments c =
          (SocialState.mk (fun p => if p = "p1" then some (PostSocialDoc.mk "a" 2 0) else none)
            (fun _ => none)
            [(LikeKey.mk SubjectType.post "u1" "p1", LikeDoc.mk "u1" "p1" 3)]).comments c) ∧
        (∀ k, (lookupLike s2.likes k).isSome =
          (lookupLike
            (SocialState.mk (fun p => if p = "p1" then some (PostSocialDoc.mk "a" 2 0) else none)
              (fun _ => none)
              [(LikeKey.mk SubjectType.post "u1" "p1", LikeDoc.mk "u1" "p1" 3)]).likes k).isSome) :=
  ((c3_like_toggle_involution
      (SocialState.mk (fun p => if p = "p1" then some (PostSocialDoc.mk "a" 2 0) else none)
        (fun _ => none)
        [(LikeKey.mk SubjectType.post "u1" "p1", LikeDoc.mk "u1" "p1" 3)]) "u1" "p1" 7 8).1
    (PostSocialDoc.mk "a" 2 0) (by decide)).1 (LikeDoc.mk "u1" "p1" 3) (by decide)

/-- C4, counterexample: firestore.Increment performs no clamping, so from
a state whose post document has like_count 0 while a like document exists,
the toggle commits like_count -1, which differs from the claimed
max(0, prior + delta) = 0. -/
theorem c4_no_clamp_counterexample :
    firestoreIncrement 0 (-1) = -1 ∧
    (max 0 (0 + (-1)) : Int) = 0 ∧
    firestoreIncrement 0 (-1) ≠ max 0 (0 + (-1)) ∧
    ∃ s1, togglePostLike
        (SocialState.mk (fun p => if p = "p1" then some (PostSocialDoc.mk "a" 0 0) else none)
          (fun _ => none)
          [(LikeKey.mk SubjectType.post "u1" "p1", LikeDoc.mk "u1" "p1" 0)]) "u1" "p1" 5 =
        Except.ok (false, s1) ∧
      s1.posts "p1" = some (PostSocialDoc.mk "a" (-1) 0) := by
  refine ⟨rfl, rfl, by decide, _, rfl, by decide⟩

/-- C4, amended: the increment used inside the toggle transactions is
unclamped addition, but starting from a state whose counters equal the
number of like documents per subject (and whose like ids are unique), a
like toggle preserves that consistency, so every committed like_count
stays non-negative. -/
theorem c4_like_count_nonnegative (s : SocialState) (uid sid : String) (now : Nat)
    (hw : likesWf s.likes) (hpc : postCountsConsistent s)
    (hcc : commentCountsConsistent s) :
    (∀ b s1, togglePostLike s uid sid now = Except.ok (b, s1) →
      likesWf s1.likes ∧ postCountsConsistent s1 ∧ commentCountsConsistent s1 ∧
      (∀ pid post, s1.posts pid = some post → 0 ≤ post.likeCount) ∧
      (∀ cid c, s1.comments cid = some c → 0 ≤ c.likeCount)) ∧
    (∀ b s1, toggleCommentLike s uid sid now = Except.ok (b, s1) →
      likesWf s1.likes ∧ postCountsConsistent s1 ∧ commentCountsConsistent s1 ∧
      (∀ cid c, s1.comments cid = some c → 0 ≤ c.likeCount) ∧
      (∀ pid post, s1.posts pid = some post → 0 ≤ post.likeCount)) := by
  constructor
  · intro b s1 ht
    unfold togglePostLike at ht
    cases hps : s.posts sid with
    | none => rw [hps] at ht; exact absurd ht (by simp)
    | some post =>
      rw [hps] at ht
      cases hlk : lookupLike s.likes ⟨SubjectType.post, uid, sid⟩ with
      | some d =>
        rw [hlk] at ht
        simp only [Except.ok.injEq, Prod.mk.injEq] at ht
        obtain ⟨hb, hs1⟩ := ht
        subst hs1
        have hmatch : countLikes s.likes SubjectType.post sid =
            countLikes (removeLike s.likes ⟨SubjectType.post, uid, sid⟩) SubjectType.post sid + 1 :=
          countLikes_removeLike_match s.likes ⟨SubjectType.post, uid, sid⟩ d hw hlk
        have hwf' : likesWf (removeLike s.likes ⟨SubjectType.post, uid, sid⟩) :=
          likesWf_removeLike s.likes _ hw
        have hpc' : postCountsConsistent
            { s with
              likes := removeLike s.likes ⟨SubjectType.post, uid, sid⟩,
              posts := fun p =>
                if p = sid then
                  some { post with likeCount := firestoreIncrement post.likeCount (-1) }
                else s.posts p } := by
          intro pid p hp2
          dsimp only at hp2 ⊢
          by_cases hpid : pid = sid
          · rw [if_pos hpid] at hp2
            obtain rfl := Option.some.inj hp2
            rw [hpid]
            have h1 := hpc sid post hps
            simp [firestoreIncrement]
            omega
          · rw [if_neg hpid] at hp2
            rw [hpc pid p hp2]
            simp [countLikes_removeLike_other, Ne.symm hpid]
        have hcc' : commentCountsConsistent
            { s with
              likes := removeLike s.likes ⟨SubjectType.post, uid, sid⟩,
              posts := fun p =>
                if p = sid then
                  some { post with likeCount := firestoreIncrement post.likeCount (-1) }
                else s.posts p } := by
          intro cid c hc2
          dsimp only at hc2 ⊢
          rw [hcc cid c hc2]
          simp [countLikes_removeLike_other]
        exact ⟨hwf', hpc', hcc',
          fun pid p hp2 => by rw [hpc' pid p hp2]; exact Int.natCast_nonneg _,
          fun cid c hc2 => by rw [hcc' cid c hc2]; exact Int.natCast_nonneg _⟩
      | none =>
        rw [hlk] at ht
        simp only [Except.ok.injEq, Prod.mk.injEq] at ht
        obtain ⟨hb, hs1⟩ := ht
        subst hs1
        have hwf' := likesWf_cons s.likes ⟨SubjectType.post, uid, sid⟩ ⟨uid, sid, now⟩ hw hlk
        have hpc' : postCountsConsistent
            { s with
              likes := (⟨SubjectType.post, uid, sid⟩, ⟨uid, sid, now⟩) :: s.likes,
              posts := fun p =>
                if p = sid then
                  some { post with likeCount := firestoreIncrement post.likeCount 1 }
                else s.posts p } := by
          intro pid p hp2
          dsimp only at hp2 ⊢
          by_cases hpid : pid = sid
          · rw [if_pos hpid] at hp2
            obtain rfl := Option.some.inj hp2
            rw [hpid]
            have h1 := hpc sid post hps
            simp [countLikes, firestoreIncrement]
            omega
          · rw [if_neg hpid] at hp2
            rw [hpc pid p hp2]
            simp [countLikes, Ne.symm hpid]
        have hcc' : commentCountsConsistent
            { s with
              likes := (⟨SubjectType.post, uid, sid⟩, ⟨uid, sid, now⟩) :: s.likes,
              posts := fun p =>
                if p = sid then
                  some { post with likeCount := firestoreIncrement post.likeCount 1 }
                else s.posts p } := by
          intro cid c hc2
          dsimp only at hc2 ⊢
          rw [hcc cid c hc2]
          simp [countLikes]
        exact ⟨hwf', hpc', hcc',
          fun pid p hp2 => by rw [hpc' pid p hp2]; exact Int.natCast_nonneg _,
          fun cid c hc2 => by rw [hcc' cid c hc2]; exact Int.natCast_nonneg _⟩
  · intro b s1 ht
    unfold toggleCommentLike at ht
    cases hcs : s.comments sid with
    | none => rw [hcs] at ht; exact absurd ht (by simp)
    | some c =>
      rw [hcs] at ht
      cases hlk : lookupLike s.likes ⟨SubjectType.comment, uid, sid⟩ with
      | some d =>
        rw [hlk] at ht
        simp only [Except.ok.injEq, Prod.mk.injEq] at ht
        obtain ⟨hb, hs1⟩ := ht
        subst hs1
        have hmatch : countLikes s.likes SubjectType.comment sid =
            countLikes (removeLike s.likes ⟨SubjectType.comment, uid, sid⟩) SubjectType.comment sid + 1 :=
          countLikes_removeLike_match s.likes ⟨SubjectType.comment, uid, sid⟩ d hw hlk
        have hwf' : likesWf (removeLike s.likes ⟨SubjectType.comment, uid, sid⟩) :=
          likesWf_removeLike s.likes _ hw
        have hcc' : commentCountsConsistent
            { s with
              likes := removeLike s.likes ⟨SubjectType.comment, uid, sid⟩,
              comments := fun p =>
                if p = sid then
                  some { c with likeCount := firestoreIncrement c.likeCount (-1) }
                else s.comments p } := by
          intro cid c2 hc2
          dsimp only at hc2 ⊢
          by_cases hcid : cid = sid
          · rw [if_pos hcid] at hc2
            obtain rfl := Option.some.inj hc2
            rw [hcid]
            have h1 := hcc sid c hcs
            simp [firestoreIncrement]
            omega
          · rw [if_neg hcid] at hc2
            rw [hcc cid c2 hc2]
            simp [countLikes_removeLike_other, Ne.symm hcid]
        have hpc' : postCountsConsistent
            { s with
              likes := removeLike s.likes ⟨SubjectType.comment, uid, sid⟩,
              comments := fun p =>
                if p = sid then
                  some { c with likeCount := firestoreIncrement c.likeCount (-1) }
                else s.comments p } := by
          intro pid p hp2
          dsimp only at hp2 ⊢
          rw [hpc pid p hp2]
          simp [countLikes_removeLike_other]
        exact ⟨hwf', hpc', hcc',
          fun cid c2 hc2 => by rw [hcc' cid c2 hc2]; exact Int.natCast_nonneg _,
          fun pid p hp2 => by rw [hpc' pid p hp2]; exact Int.natCast_nonneg _⟩
      | none =>
        rw [hlk] at ht
        simp only [Except.ok.injEq, Prod.mk.injEq] at ht
        obtain ⟨hb, hs1⟩ := ht
        subst hs1
        have hwf' := likesWf_cons s.likes ⟨SubjectType.comment, uid, sid⟩ ⟨uid, sid, now⟩ hw hlk
        have hcc' : commentCountsConsistent
            { s with
              likes := (⟨SubjectType.comment, uid, sid⟩, ⟨uid, sid, now⟩) :: s.likes,
              comments := fun p =>
                if p = sid then
                  some { c with likeCount := firestoreIncrement c.likeCount 1 }
                else s.comments p } := by
          intro cid c2 hc2
          dsimp only at hc2 ⊢
          by_cases hcid : cid = sid
          · rw [if_pos hcid] at hc2
            obtain rfl := Option.some.inj hc2
            rw [hcid]
            have h1 := hcc sid c hcs
            simp [countLikes, firestoreIncrement]
            omega
          · rw [if_neg hcid] at hc2
            rw [hcc cid c2 hc2]
            simp [countLikes, Ne.symm hcid]
        have hpc' : postCountsConsistent
            { s with
              likes := (⟨SubjectType.comment, uid, sid⟩, ⟨uid, sid, now⟩) :: s.likes,
              comments := fun p =>
                if p = sid then
                  some { c with likeCount := firestoreIncrement c.likeCount 1 }
                else s.comments p } := by
          intro pid p hp2
          dsimp only at hp2 ⊢
          rw [hpc pid p hp2]
          simp [countLikes]
        exact ⟨hwf', hpc', hcc',
          fun cid c2 hc2 => by rw [hcc' cid c2 hc2]; exact Int.natCast_nonneg _,
          fun pid p hp2 => by rw [hpc' pid p hp2]; exact Int.natCast_nonneg _⟩

/-- C4, witness: preservation applied at a concrete consistent state. -/
theorem c4_like_count_nonnegative_witness :
    (∀ b s1, togglePostLike
        (SocialState.mk (fun p => if p = "p1" then some (PostSocialDoc.mk "a" 0 0) else none)
          (fun _ => none) []) "u1" "p1" 4 = Except.ok (b, s1) →
      likesWf s1.likes ∧ postCountsConsistent s1 ∧ commentCountsConsistent s1 ∧
      (∀ pid post, s1.posts pid = some post → 0 ≤ post.likeCount) ∧
      (∀ cid c, s1.comments cid = some c → 0 ≤ c.likeCount)) ∧
    (∀ b s1, toggleCommentLike
        (SocialState.mk (fun p => if p = "p1" then some (PostSocialDoc.mk "a" 0 0) else none)
          (fun _ => none) []) "u1" "p1" 4 = Except.ok (b, s1) →
      likesWf s1.likes ∧ postCountsConsistent s1 ∧ commentCountsConsistent s1 ∧
      (∀ cid c, s1.comments cid = some c → 0 ≤ c.likeCount) ∧
      (∀ pid post, s1.posts pid = some post → 0 ≤ post.likeCount)) :=
  c4_like_count_nonnegative
    (SocialState.mk (fun p => if p = "p1" then some (PostSocialDoc.mk "a" 0 0) else none)
      (fun _ => none) []) "u1" "p1" 4
    (by simp [likesWf])
    (by
      intro pid post hp2
      by_cases h : pid = "p1" <;> simp [h] at hp2
      simp [← hp2, countLikes])
    (by intro cid c hc2; simp at hc2)

/-- C2, witness: the SUCCESS trace at concrete inputs. -/
theorem c2_commit_precedes_vector_insert_witness :
    (registerNosePrint (fun _ => some (PetDoc.mk "u1" false none none)) "p1" "u1" "k" true 1 0 (mkRat 9 10) id).2 =
      [AdmissionEffect.makePublic "k",
       AdmissionEffect.commitPet "p1" (id "k") ((processImage 1 0 (mkRat 9 10)).faissId.getD 0),
       AdmissionEffect.addVector] ∧
    ∀ n, AdmissionEffect.addVector ∈
        ((registerNosePrint (fun _ => some (PetDoc.mk "u1" false none none)) "p1" "u1" "k" true 1 0 (mkRat 9 10) id).2.take n) →
      AdmissionEffect.commitPet "p1" (id "k") ((processImage 1 0 (mkRat 9 10)).faissId.getD 0) ∈
        ((registerNosePrint (fun _ => some (PetDoc.mk "u1" false none none)) "p1" "u1" "k" true 1 0 (mkRat 9 10) id).2.take n) :=
  c2_commit_precedes_vector_insert (fun _ => some (PetDoc.mk "u1" false none none))
    "p1" "u1" "k" true 1 0 (mkRat 9 10) id (by decide)

/-- C5: every notification-producing path (comment fan-out including
mentions, post and comment like toggles, cartoon terminal transitions)
goes through create_notification, which silently drops the write when the
recipient equals the sender, so the self-delivery count stays 0. -/
theorem c5_no_self_notification (users : String → Option UserDoc)
    (store : List NotificationDoc) (hu : usersWf users)
    (h0 : noSelfDelivery store) :
    (∀ r snd t tid summ, r = snd →
      createNotification users store r snd t tid summ = store) ∧
    (∀ r snd t tid summ,
      selfDeliveryCount (createNotification users store r snd t tid summ) = 0) ∧
    (∀ pa a pid summ mentioned,
      selfDeliveryCount (commentNotifyFanout users store pa a pid summ mentioned) = 0) ∧
    (∀ pa u pid liked,
      selfDeliveryCount (postLikeNotify users store pa u pid liked) = 0) ∧
    (∀ ca u cid summ liked,
      selfDeliveryCount (commentLikeNotify users store ca u cid summ liked) = 0) ∧
    (∀ u jid ok,
      selfDeliveryCount (cartoonTerminalNotify users store u jid ok) = 0) := by
  refine ⟨?_, ?_, ?_, ?_, ?_, ?_⟩
  · intro r snd t tid summ hrs
    simp [createNotification, hrs]
  · intro r snd t tid summ
    exact selfDeliveryCount_eq_zero _
      (createNotification_preserves users store r snd t tid summ hu h0)
  · intro pa a pid summ mentioned
    exact selfDeliveryCount_eq_zero _
      (mentionFold_preserves users a pid summ hu mentioned _
        (createNotification_preserves users store pa a .commentMade pid summ hu h0))
  · intro pa u pid liked
    unfold postLikeNotify
    by_cases hc : liked = true ∧ pa ≠ u
    · rw [if_pos hc]
      exact selfDeliveryCount_eq_zero _
        (createNotification_preserves users store pa u .postLike pid none hu h0)
    · rw [if_neg hc]
      exact selfDeliveryCount_eq_zero _ h0
  · intro ca u cid summ liked
    unfold commentLikeNotify
    by_cases hc : liked = true
    · rw [if_pos hc]
      exact selfDeliveryCount_eq_zero _
        (createNotification_preserves users store ca u .commentLike cid summ hu h0)
    · rw [if_neg hc]
      exact selfDeliveryCount_eq_zero _ h0
  · intro u jid ok
    exact selfDeliveryCount_eq_zero _
      (createNotification_preserves users store u "system" _ jid none hu h0)

/-- C5, witness: instantiated at a one-user collection and empty store. -/
theorem c5_no_self_notification_witness :
    (∀ r snd t tid summ, r = snd →
      createNotification (fun i => if i = "u1" then some (UserDoc.mk "u1" "alice" none) else none)
        [] r snd t tid summ = []) ∧
    (∀ r snd t tid summ,
      selfDeliveryCount (createNotification
        (fun i => if i = "u1" then some (UserDoc.mk "u1" "alice" none) else none)
        [] r snd t tid summ) = 0) ∧
    (∀ pa a pid summ mentioned,
      selfDeliveryCount (commentNotifyFanout
        (fun i => if i = "u1" then some (UserDoc.mk "u1" "alice" none) else none)
        [] pa a pid summ mentioned) = 0) ∧
    (∀ pa u pid liked,
      selfDeliveryCount (postLikeNotify
        (fun i => if i = "u1" then some (UserDoc.mk "u1" "alice" none) else none)
        [] pa u pid liked) = 0) ∧
    (∀ ca u cid summ liked,
      selfDeliveryCount (commentLikeNotify
        (fun i => if i = "u1" then some (UserDoc.mk "u1" "alice" none) else none)
        [] ca u cid summ liked) = 0) ∧
    (∀ u jid ok,
      selfDeliveryCount (cartoonTerminalNotify
        (fun i => if i = "u1" then some (UserDoc.mk "u1" "alice" none) else none)
        [] u jid ok) = 0) :=
  c5_no_self_notification
    (fun i => if i = "u1" then some (UserDoc.mk "u1" "alice" none) else none) []
    (by
      intro id u h
      by_cases hi : id = "u1"
      · subst hi
        simp at h
        subst h
        rfl
      · simp [hi] at h)
    (by intro n hn; simp at hn)

/-- C6: a user cancel succeeds, moving the status to CANCELING, exactly
when the caller owns the job and its status is PROCESSING; an owner
cancel in any other state is rejected 409 INVALID_STATE_FOR_CANCEL;
COMPLETED and FAILED are terminal; and along every trajectory of
operation steps the status rank never decreases and a status once left
is never revisited. -/
theorem c6_cancel_fsm_monotone (jobs : String → Option JobDoc) (uid jid : String) :
    (∀ job, jobs jid = some job →
      ((∃ j' st', cancelCartoonJob jobs uid jid = Except.ok (j', st')) ↔
          (job.userId = uid ∧ job.status = JobStatus.processing)) ∧
      (job.userId = uid → job.status = JobStatus.processing →
        cancelCartoonJob jobs uid jid =
          Except.ok ({ job with status := JobStatus.canceling },
            fun k => if k = jid then some { job with status := JobStatus.canceling }
              else jobs k) ∧
        jobStep job { job with status := JobStatus.canceling }) ∧
      (job.userId = uid → job.status ≠ JobStatus.processing →
        cancelCartoonJobRoute jobs uid jid = (409, "INVALID_STATE_FOR_CANCEL"))) ∧
    (∀ j j', jobStep j j' →
      (j.status = JobStatus.completed ∨ j.status = JobStatus.failed) → j' = j) ∧
    (∀ traj : Nat → JobDoc, (∀ i, jobStep (traj i) (traj (i + 1))) →
      (∀ n m, n ≤ m → statusRank (traj n).status ≤ statusRank (traj m).status) ∧
      (∀ n k m, n ≤ k → k ≤ m → (traj m).status = (traj n).status →
        (traj k).status = (traj n).status)) := by
  refine ⟨?_, ?_, ?_⟩
  · intro job hj
    refine ⟨⟨?_, ?_⟩, ?_, ?_⟩
    · rintro ⟨j', st', hok⟩
      by_cases hown : job.userId = uid
      · by_cases hst : job.status = JobStatus.processing
        · exact ⟨hown, hst⟩
        · simp [cancelCartoonJob, hj, hown, hst] at hok
      · simp [cancelCartoonJob, hj, hown] at hok
    · rintro ⟨hown, hst⟩
      exact ⟨{ job with status := JobStatus.canceling },
        fun k => if k = jid then some { job with status := JobStatus.canceling } else jobs k,
        by simp [cancelCartoonJob, hj, hown, hst]⟩
    · intro hown hst
      constructor
      · simp [cancelCartoonJob, hj, hown, hst]
      · exact jobStep.cancelStep job hst
    · intro hown hst
      simp [cancelCartoonJobRoute, cancelCartoonJob, hj, hown, hst]
  · intro j j' hstep hterm
    cases hstep with
    | cancelStep hp =>
      rcases hterm with ht | ht <;> rw [hp] at ht <;> exact JobStatus.noConfusion ht
    | completeStep => simp [completeJob, if_pos hterm]
    | failStep msg => simp [failJob, if_pos hterm]
  · intro traj hstep
    have hmono : ∀ n m, n ≤ m →
        statusRank (traj n).status ≤ statusRank (traj m).status := by
      intro n m hnm
      induction m, hnm using Nat.le_induction with
      | base => exact le_refl _
      | succ m hm ih =>
        rcases stepRank _ _ (hstep m) with he | hlt
        · rw [he]; exact ih
        · exact le_trans ih (le_of_lt hlt)
    refine ⟨hmono, ?_⟩
    intro n k m hnk hkm heq
    induction k, hnk using Nat.le_induction with
    | base => rfl
    | succ k hk ih =>
      have hkm' : k ≤ m := Nat.le_of_succ_le hkm
      have hsk := ih hkm'
      rcases stepRank _ _ (hstep k) with he | hlt
      · rw [he, hsk]
      · exfalso
        have h2 : statusRank (traj (k + 1)).status ≤ statusRank (traj m).status :=
          hmono (k + 1) m hkm
        rw [heq] at h2
        have h3 : statusRank (traj k).status = statusRank (traj n).status := by rw [hsk]
        omega

/-- C6, witness: a concrete owned processing job and a two-step
trajectory. -/
theorem c6_cancel_fsm_monotone_witness :
    (∀ job, (fun j => if j = "j1" then some (JobDoc.mk "u1" JobStatus.processing none) else none) "j1" = some job →
      ((∃ j' st', cancelCartoonJob
            (fun j => if j = "j1" then some (JobDoc.mk "u1" JobStatus.processing none) else none)
            "u1" "j1" = Except.ok (j', st')) ↔
          (job.userId = "u1" ∧ job.status = JobStatus.processing)) ∧
      (job.userId = "u1" → job.status = JobStatus.processing →
        cancelCartoonJob
            (fun j => if j = "j1" then some (JobDoc.mk "u1" JobStatus.processing none) else none)
            "u1" "j1" =
          Except.ok ({ job with status := JobStatus.canceling },
            fun k => if k = "j1" then some { job with status := JobStatus.canceling }
              else (fun j => if j = "j1" then some (JobDoc.mk "u1" JobStatus.processing none) else none) k) ∧
        jobStep job { job with status := JobStatus.canceling }) ∧
      (job.userId = "u1" → job.status ≠ JobStatus.processing →
        cancelCartoonJobRoute
          (fun j => if j = "j1" then some (JobDoc.mk "u1" JobStatus.processing none) else none)
          "u1" "j1" = (409, "INVALID_STATE_FOR_CANCEL"))) ∧
    (∀ j j', jobStep j j' →
      (j.status = JobStatus.completed ∨ j.status = JobStatus.failed) → j' = j) ∧
    (∀ traj : Nat → JobDoc, (∀ i, jobStep (traj i) (traj (i + 1))) →
      (∀ n m, n ≤ m → statusRank (traj n).status ≤ statusRank (traj m).status) ∧
      (∀ n k m, n ≤ k → k ≤ m → (traj m).status = (traj n).status →
        (traj k).status = (traj n).status)) :=
  c6_cancel_fsm_monotone
    (fun j => if j = "j1" then some (JobDoc.mk "u1" JobStatus.processing none) else none)
    "u1" "j1"

/-- C7, counterexample: a cancel issued by a non-owner of an existing job
is answered 403 FORBIDDEN, not 404; a missing job is answered 404, so the
two cases are distinguishable and existence leaks, contrary to the claim
that ownership failures on job operations are always reported NotFound. -/
theorem c7_cancel_forbidden_counterexample :
    (fun j => if j = "j1" then some (JobDoc.mk "alice" JobStatus.processing none) else none) "j1" =
      some (JobDoc.mk "alice" JobStatus.processing none) ∧
    "alice" ≠ "bob" ∧
    cancelCartoonJobRoute
      (fun j => if j = "j1" then some (JobDoc.mk "alice" JobStatus.processing none) else none)
      "bob" "j1" = (403, "FORBIDDEN") ∧
    cancelCartoonJobRoute
      (fun j => if j = "j1" then some (JobDoc.mk "alice" JobStatus.processing none) else none)
      "bob" "nope" = (404, "JOB_NOT_FOUND") := by
  refine ⟨by decide, by decide, by decide, by decide⟩

/-- C7, amended: the status poll maps a non-owned job to 404, but the
cancel route maps a non-owner to 403 FORBIDDEN while a missing job maps
to 404, so only the poll hides existence. -/
theorem c7_ownership_error_mapping (jobs : String → Option JobDoc)
    (uid jid : String) (job : JobDoc) (hj : jobs jid = some job)
    (hown : job.userId ≠ uid) :
    getCartoonJobRoute jobs uid jid = (404, "JOB_NOT_FOUND_OR_FORBIDDEN") ∧
    cancelCartoonJobRoute jobs uid jid = (403, "FORBIDDEN") ∧
    (∀ jid2, jobs jid2 = none →
      getCartoonJobRoute jobs uid jid2 = (404, "JOB_NOT_FOUND_OR_FORBIDDEN") ∧
      cancelCartoonJobRoute jobs uid jid2 = (404, "JOB_NOT_FOUND")) := by
  refine ⟨?_, ?_, ?_⟩
  · simp [getCartoonJobRoute, getJobByIdAndOwner, hj, hown]
  · simp [cancelCartoonJobRoute, cancelCartoonJob, hj, hown]
  · intro jid2 hnone
    constructor
    · simp [getCartoonJobRoute, getJobByIdAndOwner, hnone]
    · simp [cancelCartoonJobRoute, cancelCartoonJob, hnone]

/-- C7, witness for the amended mapping at a concrete store. -/
theorem c7_ownership_error_mapping_witness :
    getCartoonJobRoute
      (fun j => if j = "j1" then some (JobDoc.mk "alice" JobStatus.processing none) else none)
      "bob" "j1" = (404, "JOB_NOT_FOUND_OR_FORBIDDEN") ∧
    cancelCartoonJobRoute
      (fun j => if j = "j1" then some (JobDoc.mk "alice" JobStatus.processing none) else none)
      "bob" "j1" = (403, "FORBIDDEN") ∧
    (∀ jid2, (fun j => if j = "j1" then some (JobDoc.mk "alice" JobStatus.processing none) else none) jid2 = none →
      getCartoonJobRoute
        (fun j => if j = "j1" then some (JobDoc.mk "alice" JobStatus.processing none) else none)
        "bob" jid2 = (404, "JOB_NOT_FOUND_OR_FORBIDDEN") ∧
      cancelCartoonJobRoute
        (fun j => if j = "j1" then some (JobDoc.mk "alice" JobStatus.processing none) else none)
        "bob" jid2 = (404, "JOB_NOT_FOUND")) :=
  c7_ownership_error_mapping
    (fun j => if j = "j1" then some (JobDoc.mk "alice" JobStatus.processing none) else none)
    "bob" "j1" (JobDoc.mk "alice" JobStatus.processing none) (by decide) (by decide)

set_option maxRecDepth 4000 in
/-- C8, counterexample: at a concrete registration (breed with ideal male
weight 16, current weight 10, adult pet), create_pet embeds the
_generate_care_settings dictionary (increments and MER data), not the
claimed fields: the seeded water increment is 90 while the claimed
max(1, round(round(10*60) * 0.2)) gives 120, and the seeded activity
increment is 30 while the claim fixes activity_increment_minutes = 10. -/
theorem c8_care_settings_counterexample :
    createPet
        (fun b => if b = "poodle" then some (BreedData.mk (some (mkRat 16 1)) (some (mkRat 14 1))) else none)
        (2026, 10)
        (PetReg.mk "p1" "u1" "poodle" PetGender.male (some (2020, 1)) none none (some true) (some (mkRat 10 1))) =
      (Except.ok (some (CareSettings.mk 45 90 30 (mkRat 896 1) (mkRat 896 1) (mkRat 16 1) 81 (mkRat 16 10))),
        ["p1"]) ∧
    claimWaterIncrement (mkRat 10 1) = 120 ∧
    (90 : Int) ≠ 120 ∧
    (30 : Int) ≠ 10 := by
  refine ⟨?_, ?_, by decide, by decide⟩
  · with_unfolding_all rfl
  · with_unfolding_all rfl

/-- C8, amended: create_pet validates the breed before any write (unknown
breed fails with ValueError leaving nothing behind) and otherwise writes
exactly one pets document embedding the _generate_care_settings values,
whose activity increment is 15 under 12 months and 30 otherwise and whose
food and water increments are clamped below by 25 and 50; the claimed
goal/capacity/meal formulas are exactly those of
PetCareSettingService.create_initial_settings_transactional, which
create_pet never invokes. -/
theorem c8_create_pet_characterization (breeds : String → Option BreedData)
    (today : Int × Int) (pet : PetReg) :
    (breeds pet.breed = none →
      createPet breeds today pet = (Except.error CreatePetErr.validationError, [])) ∧
    (∀ bd, breeds pet.breed = some bd →
      createPet breeds today pet = (Except.ok (genCareSettings breeds today pet), [pet.petId])) ∧
    (∀ cs, genCareSettings breeds today pet = some cs →
      cs.activityIncrement = (if cs.ageMonths < 12 then 15 else 30) ∧
      25 ≤ cs.foodIncrement ∧ 50 ≤ cs.waterIncrement) ∧
    (∀ g w, (createInitialSettingsTransactional breeds g pet.breed w).waterBowlCapacity =
        claimWaterBowlCapacity w ∧
      (createInitialSettingsTransactional breeds g pet.breed w).waterIncrementAmount =
        claimWaterIncrement w ∧
      (createInitialSettingsTransactional breeds g pet.breed w).activityIncrementMinutes = 10 ∧
      (createInitialSettingsTransactional breeds g pet.breed w).goalMealCount = 3) := by
  refine ⟨?_, ?_, ?_, ?_⟩
  · intro h
    simp [createPet, h]
  · intro bd hbd
    simp [createPet, hbd]
  · intro cs hcs
    revert hcs
    unfold genCareSettings
    dsimp only
    split
    · intro hcs
      exact absurd hcs (by simp)
    · intro hcs
      obtain rfl := Option.some.inj hcs
      exact ⟨rfl, le_max_left _ _, le_max_left _ _⟩
  · intro g w
    exact ⟨rfl, rfl, rfl, rfl⟩

/-- C8, witness for the amended characterization at the counterexample
inputs. -/
theorem c8_create_pet_characterization_witness :
    ((fun b => if b = "poodle" then some (BreedData.mk (some (mkRat 16 1)) (some (mkRat 14 1))) else none) "poodle" = none →
      createPet
        (fun b => if b = "poodle" then some (BreedData.mk (some (mkRat 16 1)) (some (mkRat 14 1))) else none)
        (2026, 10)
        (PetReg.mk "p1" "u1" "poodle" PetGender.male (some (2020, 1)) none none (some true) (some (mkRat 10 1))) =
        (Except.error CreatePetErr.validationError, [])) ∧
    (∀ bd, (fun b => if b = "poodle" then some (BreedData.mk (some (mkRat 16 1)) (some (mkRat 14 1))) else none) "poodle" = some bd →
      createPet
        (fun b => if b = "poodle" then some (BreedData.mk (some (mkRat 16 1)) (some (mkRat 14 1))) else none)
        (2026, 10)
        (PetReg.mk "p1" "u1" "poodle" PetGender.male (some (2020, 1)) none none (some true) (some (mkRat 10 1))) =
        (Except.ok (genCareSettings
          (fun b => if b = "poodle" then some (BreedData.mk (some (mkRat 16 1)) (some (mkRat 14 1))) else none)
          (2026, 10)
          (PetReg.mk "p1" "u1" "poodle" PetGender.male (some (2020, 1)) none none (some true) (some (mkRat 10 1)))),
          ["p1"])) ∧
    (∀ cs, genCareSettings
        (fun b => if b = "poodle" then some (BreedData.mk (some (mkRat 16 1)) (some (mkRat 14 1))) else none)
        (2026, 10)
        (PetReg.mk "p1" "u1" "poodle" PetGender.male (some (2020, 1)) none none (some true) (some (mkRat 10 1))) = some cs →
      cs.activityIncrement = (if cs.ageMonths < 12 then 15 else 30) ∧
      25 ≤ cs.foodIncrement ∧ 50 ≤ cs.waterIncrement) ∧
    (∀ g w, (createInitialSettingsTransactional
        (fun b => if b = "poodle" then some (BreedData.mk (some (mkRat 16 1)) (some (mkRat 14 1))) else none)
        g "poodle" w).waterBowlCapacity = claimWaterBowlCapacity w ∧
      (createInitialSettingsTransactional
        (fun b => if b = "poodle" then some (BreedData.mk (some (mkRat 16 1)) (some (mkRat 14 1))) else none)
        g "poodle" w).waterIncrementAmount = claimWaterIncrement w ∧
      (createInitialSettingsTransactional
        (fun b => if b = "poodle" then some (BreedData.mk (some (mkRat 16 1)) (some (mkRat 14 1))) else none)
        g "poodle" w).activityIncrementMinutes = 10 ∧
      (createInitialSettingsTransactional
        (fun b => if b = "poodle" then some (BreedData.mk (some (mkRat 16 1)) (some (mkRat 14 1))) else none)
        g "poodle" w).goalMealCount = 3) :=
  c8_create_pet_characterization
    (fun b => if b = "poodle" then some (BreedData.mk (some (mkRat 16 1)) (some (mkRat 14 1))) else none)
    (2026, 10)
    (PetReg.mk "p1" "u1" "poodle" PetGender.male (some (2020, 1)) none none (some true) (some (mkRat 10 1)))

/-- C9, counterexample: with an existing user and pet, create_post makes
no object-storage call at all (no existence check, no make_public) and
stores the raw file_paths as image_urls, contrary to the claimed
blob-confirmation, make_public and public-URL storage. -/
theorem c9_create_post_counterexample :
    createPost
        (fun i => if i = "u1" then some (UserDoc.mk "u1" "alice" none) else none)
        [PetSnapshotSrc.mk "u1" "pet1" "Rex" "poodle"]
        "u1" "hello" ["posts/u1/img.jpg"] "pid1" =
      (some (PostDocOut.mk "pid1" "u1" "alice" "pet1" ["posts/u1/img.jpg"] "hello"), []) ∧
    StorageEffect.makePublicKey "posts/u1/img.jpg" ∉
      (createPost
        (fun i => if i = "u1" then some (UserDoc.mk "u1" "alice" none) else none)
        [PetSnapshotSrc.mk "u1" "pet1" "Rex" "poodle"]
        "u1" "hello" ["posts/u1/img.jpg"] "pid1").2 ∧
    (PostDocOut.mk "pid1" "u1" "alice" "pet1" ["posts/u1/img.jpg"] "hello").imageUrls =
      ["posts/u1/img.jpg"] := by
  refine ⟨by decide, by decide, rfl⟩

/-- C9, amended: create_post verifies the user and locates the first pet
(missing user or pet yields None, answered 404 RESOURCE_NOT_FOUND), then
writes exactly one Post whose image_urls are the file_paths exactly as
passed, performing no blob-existence check and no make_public call. -/
theorem c9_create_post_characterization (users : String → Option UserDoc)
    (pets : List PetSnapshotSrc) (uid text postId : String)
    (filePaths : List String) :
    (users uid = none →
      createPost users pets uid text filePaths postId = (none, []) ∧
      createPostRoute users pets uid text filePaths postId = (404, "RESOURCE_NOT_FOUND")) ∧
    (∀ u, users uid = some u → pets.find? (fun p => p.userId == uid) = none →
      createPost users pets uid text filePaths postId = (none, []) ∧
      createPostRoute users pets uid text filePaths postId = (404, "RESOURCE_NOT_FOUND")) ∧
    (∀ u pet, users uid = some u → pets.find? (fun p => p.userId == uid) = some pet →
      createPost users pets uid text filePaths postId =
        (some (PostDocOut.mk postId uid u.nickname pet.petId filePaths text), []) ∧
      createPostRoute users pets uid text filePaths postId = (201, "CREATED")) := by
  refine ⟨?_, ?_, ?_⟩
  · intro h
    constructor
    · simp [createPost, h]
    · simp [createPostRoute, createPost, h]
  · intro u hu hp
    constructor
    · simp [createPost, hu, hp]
    · simp [createPostRoute, createPost, hu, hp]
  · intro u pet hu hp
    constructor
    · simp [createPost, hu, hp]
    · simp [createPostRoute, createPost, hu, hp]

/-- C9, witness at the counterexample inputs. -/
theorem c9_create_post_characterization_witness :
    ((fun i => if i = "u1" then some (UserDoc.mk "u1" "alice" none) else none) "u1" = none →
      createPost (fun i => if i = "u1" then some (UserDoc.mk "u1" "alice" none) else none)
        [PetSnapshotSrc.mk "u1" "pet1" "Rex" "poodle"] "u1" "hello" ["posts/u1/img.jpg"] "pid1" = (none, []) ∧
      createPostRoute (fun i => if i = "u1" then some (UserDoc.mk "u1" "alice" none) else none)
        [PetSnapshotSrc.mk "u1" "pet1" "Rex" "poodle"] "u1" "hello" ["posts/u1/img.jpg"] "pid1" =
        (404, "RESOURCE_NOT_FOUND")) ∧
    (∀ u, (fun i => if i = "u1" then some (UserDoc.mk "u1" "alice" none) else none) "u1" = some u →
      [PetSnapshotSrc.mk "u1" "pet1" "Rex" "poodle"].find? (fun p => p.userId == "u1") = none →
      createPost (fun i => if i = "u1" then some (UserDoc.mk "u1" "alice" none) else none)
        [PetSnapshotSrc.mk "u1" "pet1" "Rex" "poodle"] "u1" "hello" ["posts/u1/img.jpg"] "pid1" = (none, []) ∧
      createPostRoute (fun i => if i = "u1" then some (UserDoc.mk "u1" "alice" none) else none)
        [PetSnapshotSrc.mk "u1" "pet1" "Rex" "poodle"] "u1" "hello" ["posts/u1/img.jpg"] "pid1" =
        (404, "RESOURCE_NOT_FOUND")) ∧
    (∀ u pet, (fun i => if i = "u1" then some (UserDoc.mk "u1" "alice" none) else none) "u1" = some u →
      [PetSnapshotSrc.mk "u1" "pet1" "Rex" "poodle"].find? (fun p => p.userId == "u1") = some pet →
      createPost (fun i => if i = "u1" then some (UserDoc.mk "u1" "alice" none) else none)
        [PetSnapshotSrc.mk "u1" "pet1" "Rex" "poodle"] "u1" "hello" ["posts/u1/img.jpg"] "pid1" =
        (some (PostDocOut.mk "pid1" "u1" u.nickname pet.petId ["posts/u1/img.jpg"] "hello"), []) ∧
      createPostRoute (fun i => if i = "u1" then some (UserDoc.mk "u1" "alice" none) else none)
        [PetSnapshotSrc.mk "u1" "pet1" "Rex" "poodle"] "u1" "hello" ["posts/u1/img.jpg"] "pid1" =
        (201, "CREATED")) :=
  c9_create_post_characterization
    (fun i => if i = "u1" then some (UserDoc.mk "u1" "alice" none) else none)
    [PetSnapshotSrc.mk "u1" "pet1" "Rex" "poodle"] "u1" "hello" "pid1" ["posts/u1/img.jpg"]

/-- C10: a cursor naming no existing document is silently ignored in the
post feed, the per-user post listing and the comment listing: the query
result equals the first page returned without a cursor. -/
theorem c10_unknown_cursor_ignored (ordered : List FeedDoc)
    (lookup : String → Option FeedDoc) (limit : Nat) (c : String)
    (h : lookup c = none) :
    feedQuery ordered lookup limit (some c) = feedQuery ordered lookup limit none ∧
    commentsQuery ordered lookup limit (some c) = commentsQuery ordered lookup limit none := by
  constructor
  · simp [feedQuery, h]
  · simp [commentsQuery, h]

/-- C10, witness: a concrete two-document feed and a stale cursor. -/
theorem c10_unknown_cursor_ignored_witness :
    feedQuery [FeedDoc.mk "a" 5, FeedDoc.mk "b" 3]
      (fun i => if i = "a" then some (FeedDoc.mk "a" 5) else if i = "b" then some (FeedDoc.mk "b" 3) else none)
      10 (some "deleted") =
      feedQuery [FeedDoc.mk "a" 5, FeedDoc.mk "b" 3]
        (fun i => if i = "a" then some (FeedDoc.mk "a" 5) else if i = "b" then some (FeedDoc.mk "b" 3) else none)
        10 none ∧
    commentsQuery [FeedDoc.mk "a" 5, FeedDoc.mk "b" 3]
      (fun i => if i = "a" then some (FeedDoc.mk "a" 5) else if i = "b" then some (FeedDoc.mk "b" 3) else none)
      10 (some "deleted") =
      commentsQuery [FeedDoc.mk "a" 5, FeedDoc.mk "b" 3]
        (fun i => if i = "a" then some (FeedDoc.mk "a" 5) else if i = "b" then some (FeedDoc.mk "b" 3) else none)
        10 none :=
  c10_unknown_cursor_ignored [FeedDoc.mk "a" 5, FeedDoc.mk "b" 3]
    (fun i => if i = "a" then some (FeedDoc.mk "a" 5) else if i = "b" then some (FeedDoc.mk "b" 3) else none)
    10 "deleted" (by decide)

end HappyDog
